import Mathlib

/-!
Shallow embedding of `src/main.py` (fitness tracker module).

Numbers are modelled as rationals. Python `None` results are modelled with
`Option`; exceptions that propagate to the caller are modelled with
`Except String`. Console output is modelled as a list of printed lines.
-/

namespace FitnessTracker

/-- `class Training` — basic training record: `action`, `duration`, `weight`
(`src/main.py` lines 24-33). -/
structure Training where
  action : ℚ
  duration : ℚ
  weight : ℚ
deriving DecidableEq, Repr

namespace Training

/-- `LEN_STEP: ClassVar[float] = 0.65` -/
def LEN_STEP : ℚ := 0.65

/-- `M_IN_KM: ClassVar[int] = 1000` -/
def M_IN_KM : ℚ := 1000

/-- `MIN_IN_HOUR: ClassVar[int] = 60` -/
def MIN_IN_HOUR : ℚ := 60

/-- `Training.get_distance`: `self.action * self.LEN_STEP / self.M_IN_KM`. -/
def get_distance (t : Training) : ℚ :=
  t.action * LEN_STEP / M_IN_KM

/-- `Training.get_mean_speed`: `Training.get_distance(self) / self.duration`
(the source calls `Training.get_distance` explicitly, not `self.get_distance`). -/
def get_mean_speed (t : Training) : ℚ :=
  Training.get_distance t / t.duration

/-- `Training.get_spent_calories`: the body is `pass`, so the call returns
`None`.  The `try/except NotImplementedError` wrapped around the `def`
statement is dead code: defining a function raises nothing, so the
`except` branch (which would print a message) can never run. -/
def get_spent_calories (_ : Training) : Option ℚ :=
  none

end Training

/-- `class Running(Training)` — adds no fields (`src/main.py` lines 59-64). -/
structure Running extends Training
deriving DecidableEq, Repr

namespace Running

/-- `CALORIES_MEAN_SPEED_MULTIPLIER: ClassVar = 18` -/
def CALORIES_MEAN_SPEED_MULTIPLIER : ℚ := 18

/-- `CALORIES_MEAN_SPEED_SHIFT: ClassVar = 1.79` -/
def CALORIES_MEAN_SPEED_SHIFT : ℚ := 1.79

/-- `MIN: ClassVar = 60` -/
def MIN : ℚ := 60

/-- `Running.get_spent_calories` (`src/main.py` lines 66-72). -/
def get_spent_calories (r : Running) : ℚ :=
  (CALORIES_MEAN_SPEED_MULTIPLIER * Training.get_mean_speed r.toTraining
      + CALORIES_MEAN_SPEED_SHIFT)
    * r.weight / Training.M_IN_KM
    * (r.duration * MIN)

end Running

/-- `class SportsWalking(Training)` — adds `height` (`src/main.py` lines 75-84). -/
structure SportsWalking extends Training where
  height : ℚ
deriving DecidableEq, Repr

namespace SportsWalking

/-- `WEIGHT_MULTIPLIER: ClassVar[float] = 0.035` -/
def WEIGHT_MULTIPLIER : ℚ := 0.035

/-- `AVG_MULTIPLIER: ClassVar[float] = 0.029` -/
def AVG_MULTIPLIER : ℚ := 0.029

/-- `CONVERSION_ms: ClassVar[float] = 0.278` -/
def CONVERSION_ms : ℚ := 0.278

/-- `CONVERSION_m: ClassVar[int] = 100` -/
def CONVERSION_m : ℚ := 100

/-- `MIN: ClassVar[int] = 60` -/
def MIN : ℚ := 60

/-- `SportsWalking.get_spent_calories` (`src/main.py` lines 86-93). -/
def get_spent_calories (w : SportsWalking) : ℚ :=
  (WEIGHT_MULTIPLIER * w.weight
      + (Training.get_mean_speed w.toTraining * CONVERSION_ms) ^ 2
        / (w.height / CONVERSION_m)
        * AVG_MULTIPLIER * w.weight)
    * (w.duration * MIN)

end SportsWalking

/-- `class Swimming(Training)` — adds `length_pool`, `count_pool`
(`src/main.py` lines 96-118). -/
structure Swimming extends Training where
  length_pool : ℚ
  count_pool : ℚ
deriving DecidableEq, Repr

namespace Swimming

/-- `LEN_STEP: ClassVar[float] = 1.38` (overrides the base constant). -/
def LEN_STEP : ℚ := 1.38

/-- `OFFSET_AVG_SPEED: ClassVar[float] = 1.1` -/
def OFFSET_AVG_SPEED : ℚ := 1.1

/-- `SPEED_MULTIPLIER: ClassVar[int] = 2` -/
def SPEED_MULTIPLIER : ℚ := 2

/-- `Swimming.get_distance`: `self.action * self.LEN_STEP / self.M_IN_KM`
with the overridden `LEN_STEP = 1.38`. -/
def get_distance (s : Swimming) : ℚ :=
  s.action * LEN_STEP / Training.M_IN_KM

/-- `Swimming.get_mean_speed`:
`self.length_pool * self.count_pool / self.M_IN_KM / self.duration`. -/
def get_mean_speed (s : Swimming) : ℚ :=
  s.length_pool * s.count_pool / Training.M_IN_KM / s.duration

/-- `Swimming.get_spent_calories` (`src/main.py` lines 110-113). -/
def get_spent_calories (s : Swimming) : ℚ :=
  (Swimming.get_mean_speed s + OFFSET_AVG_SPEED)
    * SPEED_MULTIPLIER * s.weight * s.duration

end Swimming

/-- A runtime record: either an instance of the base `Training` class or of
one of its three subclasses.  This closed sum models Python's dynamic
dispatch over the class hierarchy. -/
inductive Record where
  | base : Training → Record
  | run : Running → Record
  | wlk : SportsWalking → Record
  | swm : Swimming → Record
deriving DecidableEq, Repr

namespace Record

/-- The underlying `Training` fields of any record. -/
def toTraining : Record → Training
  | .base t => t
  | .run r => r.toTraining
  | .wlk w => w.toTraining
  | .swm s => s.toTraining

/-- `type(self).__name__` — the class name used as the display label. -/
def className : Record → String
  | .base _ => "Training"
  | .run _ => "Running"
  | .wlk _ => "SportsWalking"
  | .swm _ => "Swimming"

/-- Dynamic dispatch of `get_distance`: `Swimming` overrides it, the other
classes inherit `Training.get_distance`. -/
def get_distance : Record → ℚ
  | .base t => Training.get_distance t
  | .run r => Training.get_distance r.toTraining
  | .wlk w => Training.get_distance w.toTraining
  | .swm s => Swimming.get_distance s

/-- Dynamic dispatch of `get_mean_speed`: `Swimming` overrides it, the other
classes inherit `Training.get_mean_speed`. -/
def get_mean_speed : Record → ℚ
  | .base t => Training.get_mean_speed t
  | .run r => Training.get_mean_speed r.toTraining
  | .wlk w => Training.get_mean_speed w.toTraining
  | .swm s => Swimming.get_mean_speed s

/-- Dynamic dispatch of `get_spent_calories`: each subclass overrides it with
a total formula; the base class returns `None`. -/
def get_spent_calories : Record → Option ℚ
  | .base t => Training.get_spent_calories t
  | .run r => some (Running.get_spent_calories r)
  | .wlk w => some (SportsWalking.get_spent_calories w)
  | .swm s => some (Swimming.get_spent_calories s)

end Record

/-! ### `{:.3f}` fixed-point formatting

Python's format spec `{x:.3f}` renders `x` in fixed-point notation with
exactly three fractional digits (never scientific notation).  We model it on
rationals: scale by 1000, round to the nearest integer, and print
`intpart.fracpart` with the fractional part zero-padded to three digits. -/

/-- Decimal digit characters of a natural number, most significant first;
structural recursion on a fuel argument (`fuel ≥ n` suffices since `n / 10`
shrinks strictly below 10 within `n` steps). -/
def natCharsAux : ℕ → ℕ → List Char
  | 0, _ => []
  | fuel + 1, n =>
    if n < 10 then [Nat.digitChar n]
    else natCharsAux fuel (n / 10) ++ [Nat.digitChar (n % 10)]

/-- Decimal digit characters of a natural number, most significant first. -/
def natChars (n : ℕ) : List Char := natCharsAux (n + 1) n

/-- Decimal rendering of a natural number. -/
def natStr (n : ℕ) : String := String.mk (natChars n)

/-- The last three decimal digits of a natural number, zero padded. -/
def pad3chars (m : ℕ) : List Char :=
  [Nat.digitChar (m / 100 % 10), Nat.digitChar (m / 10 % 10),
    Nat.digitChar (m % 10)]

/-- The value scaled to thousandths and rounded to the nearest integer. -/
def scaled3 (q : ℚ) : ℤ := round (q * 1000)

/-- Integer part (with sign) of the 3-decimal fixed-point rendering. -/
def intPart3 (q : ℚ) : String :=
  (if scaled3 q < 0 then "-" else "") ++ natStr ((scaled3 q).natAbs / 1000)

/-- Fractional part (exactly three digits) of the fixed-point rendering. -/
def fracPart3 (q : ℚ) : String := String.mk (pad3chars ((scaled3 q).natAbs % 1000))

/-- Model of Python's `"{:.3f}".format(q)`. -/
def formatFixed3 (q : ℚ) : String :=
  intPart3 q ++ "." ++ fracPart3 q

/-- `class InfoMessage` (`src/main.py` lines 5-21).  The `calories` slot is an
`Option` because the base class's `get_spent_calories` stores `None` there. -/
structure InfoMessage where
  training_type : String
  duration : ℚ
  distance : ℚ
  speed : ℚ
  calories : Option ℚ
deriving DecidableEq, Repr

namespace InfoMessage

/-- `InfoMessage.get_message`: `MESSAGE.format(**asdict(self))`.  Formatting
`None` with `{:.3f}` raises `TypeError`, modelled as `none`. -/
def get_message (m : InfoMessage) : Option String :=
  m.calories.map fun c =>
    "Тип тренировки: " ++ m.training_type
      ++ "; Длительность: " ++ formatFixed3 m.duration
      ++ " ч.; Дистанция: " ++ formatFixed3 m.distance
      ++ " км; Ср. скорость: " ++ formatFixed3 m.speed
      ++ " км/ч; Потрачено ккал: " ++ formatFixed3 c ++ "."

end InfoMessage

namespace Record

/-- `Training.show_training_info`: builds the `InfoMessage` from the class
name and the (dynamically dispatched) computed metrics. -/
def show_training_info (r : Record) : InfoMessage :=
  ⟨r.className, r.toTraining.duration, r.get_distance, r.get_mean_speed,
    r.get_spent_calories⟩

end Record

/-- `read_package` (`src/main.py` lines 121-133): maps a workout-type code and
a raw value list to a record.  Known code with the right number of values:
the record.  Known code with the wrong number of values: the dataclass
constructor raises `TypeError`, which propagates (`Except.error`).  Unknown
code: prints a diagnostic and falls off the end, returning `None`.  The first
component is the list of printed lines. -/
def read_package (workout_type : String) (data : List ℚ) :
    List String × Except String (Option Record) :=
  if workout_type = "SWM" then
    match data with
    | [a, d, w, lp, cp] => ([], .ok (some (.swm ⟨⟨a, d, w⟩, lp, cp⟩)))
    | _ => ([], .error "TypeError: Swimming() takes wrong number of arguments")
  else if workout_type = "RUN" then
    match data with
    | [a, d, w] => ([], .ok (some (.run ⟨⟨a, d, w⟩⟩)))
    | _ => ([], .error "TypeError: Running() takes wrong number of arguments")
  else if workout_type = "WLK" then
    match data with
    | [a, d, w, h] => ([], .ok (some (.wlk ⟨⟨a, d, w⟩, h⟩)))
    | _ => ([], .error "TypeError: SportsWalking() takes wrong number of arguments")
  else
    (["Тренировка не найдена!"], .ok none)

/-- `main` (`src/main.py` lines 136-139): `Training.show_training_info(training)`
then print the message.  When `read_package` returned `None` (unknown code),
`show_training_info(None)` reads `None.duration` and raises `AttributeError`;
when the record is a base `Training`, formatting the `None` calories raises
`TypeError`.  On success, the printed report line is returned. -/
def main : Option Record → Except String String
  | none => .error "AttributeError: NoneType object has no attribute duration"
  | some r =>
    match (Record.show_training_info r).get_message with
    | none => .error "TypeError: unsupported format string passed to NoneType"
    | some line => .ok line

/-- One iteration of the entry-point loop: `read_package` then `main`.
Returns the printed lines and either success or the uncaught exception. -/
def processPackage (workout_type : String) (data : List ℚ) :
    List String × Except String Unit :=
  let (out, res) := read_package workout_type data
  match res with
  | .error e => (out, .error e)
  | .ok orec =>
    match main orec with
    | .error e => (out, .error e)
    | .ok line => (out ++ [line], .ok ())

/-- The entry-point loop over a list of packages; an uncaught exception
terminates the process, so no later package is processed. -/
def runAll : List (String × List ℚ) → List String × Except String Unit
  | [] => ([], .ok ())
  | (wt, data) :: rest =>
    let (out, res) := processPackage wt data
    match res with
    | .error e => (out, .error e)
    | .ok _ =>
      let (out2, res2) := runAll rest
      (out ++ out2, res2)

/-! ### State-passing form of the record operations

Each Python method body (`src/main.py` lines 35-56, 66-72, 86-93, 106-118)
only reads attributes of `self` and never assigns any, so the post-call
state of the record is its pre-call state. -/

/-- `get_distance` returning the result together with the post-call record. -/
def Record.get_distance_st (r : Record) : ℚ × Record := (r.get_distance, r)

/-- `get_mean_speed` returning the result together with the post-call record. -/
def Record.get_mean_speed_st (r : Record) : ℚ × Record := (r.get_mean_speed, r)

/-- `get_spent_calories` returning the result together with the post-call
record. -/
def Record.get_spent_calories_st (r : Record) : Option ℚ × Record :=
  (r.get_spent_calories, r)

/-- `show_training_info` returning the message together with the post-call
record. -/
def Record.show_training_info_st (r : Record) : InfoMessage × Record :=
  (r.show_training_info, r)

/-- The message built for the sample running record, used as a concrete
instantiation point. -/
def sampleRunMsg : InfoMessage := ⟨"Running", 1, 9.75, 9.75, some 797.805⟩

/-! ### Helper lemmas about the decimal digit rendering -/

theorem digitChar_isDigit {x : ℕ} (h : x < 10) : (Nat.digitChar x).isDigit = true := by
  interval_cases x <;> decide

theorem natCharsAux_digits (fuel : ℕ) :
    ∀ n, ∀ c ∈ natCharsAux fuel n, c.isDigit = true := by
  induction fuel with
  | zero => intro n c hc; simp [natCharsAux] at hc
  | succ f ih =>
    intro n c hc
    rw [natCharsAux] at hc
    by_cases h : n < 10
    · simp only [if_pos h, List.mem_singleton] at hc
      subst hc
      exact digitChar_isDigit h
    · simp only [if_neg h, List.mem_append, List.mem_singleton] at hc
      rcases hc with h1 | h1
      · exact ih _ _ h1
      · subst h1
        exact digitChar_isDigit (Nat.mod_lt _ (by norm_num))

theorem pad3chars_digits (m : ℕ) : ∀ c ∈ pad3chars m, c.isDigit = true := by
  intro c hc
  simp only [pad3chars, List.mem_cons, List.not_mem_nil, or_false] at hc
  rcases hc with h | h | h <;> subst h <;>
    exact digitChar_isDigit (Nat.mod_lt _ (by norm_num))

/-! ### Evaluation lemmas for the formatter at the concrete metric values -/

theorem formatFixed3_one : formatFixed3 (1 : ℚ) = "1.000" := by
  have h : scaled3 (1 : ℚ) = 1000 := by norm_num [scaled3, round_eq]
  simp only [formatFixed3, intPart3, fracPart3, h]
  decide

theorem formatFixed3_975 : formatFixed3 (9.75 : ℚ) = "9.750" := by
  have h : scaled3 (9.75 : ℚ) = 9750 := by norm_num [scaled3, round_eq]
  simp only [formatFixed3, intPart3, fracPart3, h]
  decide

theorem formatFixed3_run_calories : formatFixed3 (797.805 : ℚ) = "797.805" := by
  have h : scaled3 (797.805 : ℚ) = 797805 := by norm_num [scaled3, round_eq]
  simp only [formatFixed3, intPart3, fracPart3, h]
  decide

/-! ### Theorems about the claims -/

/-- Claim C1: the spec says an unknown workout-type code (e.g.
`("XYZ", [1,2,3])`) prints a diagnostic, produces no report line, returns no
record and does not crash, the program continuing with the next record.
`read_package` does print the diagnostic and return `None` without raising,
but the entry-point loop passes that `None` straight to `main`, whose call
`Training.show_training_info(training)` reads `training.duration` and raises
`AttributeError` — the process crashes and later records are never
processed. -/
theorem C1_unknown_code_diagnostic_but_crash :
    read_package "XYZ" [1, 2, 3] = (["Тренировка не найдена!"], .ok none)
    ∧ processPackage "XYZ" [1, 2, 3]
        = (["Тренировка не найдена!"],
           .error "AttributeError: NoneType object has no attribute duration")
    ∧ runAll [("XYZ", [1, 2, 3]), ("RUN", [15000, 1, 75])]
        = (["Тренировка не найдена!"],
           .error "AttributeError: NoneType object has no attribute duration") :=
  ⟨rfl, rfl, rfl⟩

/-- Claim C2: the spec says calling the calorie computation on the base
workout type signals "operation not supported" and never silently returns a
default.  In the code, `Training.get_spent_calories` has body `pass`, so the
call silently returns `None`; the `try/except NotImplementedError` around the
`def` (with its `print('The method is not implemented')`) is dead code and
nothing is ever signalled. -/
theorem C2_base_calories_silently_none (t : Training) :
    Training.get_spent_calories t = none
    ∧ Record.get_spent_calories (.base t) = none :=
  ⟨rfl, rfl⟩

/-- Claim C3: `distance()` is `action_count * step_length / 1000` with
step length 0.65 for `Running` and `SportsWalking` and 1.38 for `Swimming`. -/
theorem C3_distance_formulas :
    (∀ r : Running, Record.get_distance (.run r) = r.action * 0.65 / 1000)
    ∧ (∀ w : SportsWalking, Record.get_distance (.wlk w) = w.action * 0.65 / 1000)
    ∧ (∀ s : Swimming, Record.get_distance (.swm s) = s.action * 1.38 / 1000) := by
  refine ⟨fun r => ?_, fun w => ?_, fun s => ?_⟩ <;>
    simp [Record.get_distance, Training.get_distance, Swimming.get_distance,
      Training.LEN_STEP, Swimming.LEN_STEP, Training.M_IN_KM]

/-- Claim C4: swimming `mean_speed()` is
`length_pool * count_pool / 1000 / duration`, and is independent of
`action`: two swimming records agreeing on pool length, lap count and
duration have equal mean speed whatever their `action` counts. -/
theorem C4_swim_speed_independent_of_action :
    (∀ s : Swimming,
      Record.get_mean_speed (.swm s) = s.length_pool * s.count_pool / 1000 / s.duration)
    ∧ (∀ s₁ s₂ : Swimming, s₁.length_pool = s₂.length_pool →
        s₁.count_pool = s₂.count_pool → s₁.duration = s₂.duration →
        Record.get_mean_speed (.swm s₁) = Record.get_mean_speed (.swm s₂)) := by
  constructor
  · intro s
    simp [Record.get_mean_speed, Swimming.get_mean_speed, Training.M_IN_KM]
  · intro s₁ s₂ h1 h2 h3
    simp [Record.get_mean_speed, Swimming.get_mean_speed, h1, h2, h3]

/-- Claim C4 witness: two concrete swimming records differing only in
`action` (720 vs 9999) have equal mean speed. -/
theorem C4_swim_speed_witness :
    (Swimming.length_pool ⟨⟨720, 1, 80⟩, 25, 40⟩
        = Swimming.length_pool ⟨⟨9999, 1, 80⟩, 25, 40⟩)
    ∧ (Swimming.count_pool ⟨⟨720, 1, 80⟩, 25, 40⟩
        = Swimming.count_pool ⟨⟨9999, 1, 80⟩, 25, 40⟩)
    ∧ (Training.duration (Swimming.toTraining ⟨⟨720, 1, 80⟩, 25, 40⟩)
        = Training.duration (Swimming.toTraining ⟨⟨9999, 1, 80⟩, 25, 40⟩))
    ∧ Record.get_mean_speed (.swm ⟨⟨720, 1, 80⟩, 25, 40⟩)
        = Record.get_mean_speed (.swm ⟨⟨9999, 1, 80⟩, 25, 40⟩) :=
  ⟨rfl, rfl, rfl,
    (C4_swim_speed_independent_of_action.2 ⟨⟨720, 1, 80⟩, 25, 40⟩
      ⟨⟨9999, 1, 80⟩, 25, 40⟩ rfl rfl rfl)⟩

/-- Claim C5 counterexample: the claim approximates the running calories at
input `("RUN", [15000, 1, 75])` as ≈ 798.0075, but the very formula the claim
itself gives, `(18*9.75+1.79)*75/1000*60`, evaluates to 797.805 — off by
0.2025, far more than 3-decimal rendering tolerance. -/
theorem C5_calories_not_798_0075 :
    Running.get_spent_calories ⟨⟨15000, 1, 75⟩⟩
        = (18 * 9.75 + 1.79) * 75 / 1000 * 60
    ∧ ((18 * 9.75 + 1.79) * 75 / 1000 * 60 : ℚ) ≠ 798.0075
    ∧ |((18 * 9.75 + 1.79) * 75 / 1000 * 60 : ℚ) - 798.0075| = 0.2025 := by
  refine ⟨?_, by norm_num, ?_⟩
  · norm_num [Running.get_spent_calories, Training.get_mean_speed,
      Training.get_distance, Running.CALORIES_MEAN_SPEED_MULTIPLIER,
      Running.CALORIES_MEAN_SPEED_SHIFT, Running.MIN, Training.LEN_STEP,
      Training.M_IN_KM]
  · rw [abs_of_nonpos (by norm_num)]
    norm_num

/-- Claim C5 (amended): for input `("RUN", [15000, 1, 75])` the metrics are
distance = 9.75, mean speed = 9.75 and calories
`(18*9.75+1.79)*75/1000*60 = 797.805`, and the report line renders those
values to 3 decimals. -/
theorem C5_run_scenario :
    read_package "RUN" [15000, 1, 75] = ([], .ok (some (.run ⟨⟨15000, 1, 75⟩⟩)))
    ∧ Record.get_distance (.run ⟨⟨15000, 1, 75⟩⟩) = 9.75
    ∧ Record.get_mean_speed (.run ⟨⟨15000, 1, 75⟩⟩) = 9.75
    ∧ Record.get_spent_calories (.run ⟨⟨15000, 1, 75⟩⟩)
        = some ((18 * 9.75 + 1.79) * 75 / 1000 * 60)
    ∧ ((18 * 9.75 + 1.79) * 75 / 1000 * 60 : ℚ) = 797.805
    ∧ main (some (.run ⟨⟨15000, 1, 75⟩⟩))
        = .ok ("Тип тренировки: Running; Длительность: 1.000 ч.; "
            ++ "Дистанция: 9.750 км; Ср. скорость: 9.750 км/ч; "
            ++ "Потрачено ккал: 797.805.") := by
  have hd : Record.get_distance (.run ⟨⟨15000, 1, 75⟩⟩) = 9.75 := by
    norm_num [Record.get_distance, Training.get_distance, Training.LEN_STEP,
      Training.M_IN_KM]
  have hs : Record.get_mean_speed (.run ⟨⟨15000, 1, 75⟩⟩) = 9.75 := by
    norm_num [Record.get_mean_speed, Training.get_mean_speed,
      Training.get_distance, Training.LEN_STEP, Training.M_IN_KM]
  have hc : Running.get_spent_calories ⟨⟨15000, 1, 75⟩⟩ = 797.805 := by
    norm_num [Running.get_spent_calories, Training.get_mean_speed,
      Training.get_distance, Running.CALORIES_MEAN_SPEED_MULTIPLIER,
      Running.CALORIES_MEAN_SPEED_SHIFT, Running.MIN, Training.LEN_STEP,
      Training.M_IN_KM]
  have hdur : Training.duration (Record.toTraining (.run ⟨⟨15000, 1, 75⟩⟩)) = 1 := rfl
  refine ⟨rfl, hd, hs, ?_, by norm_num, ?_⟩
  · simp only [Record.get_spent_calories, hc]
    norm_num
  · simp only [main, Record.show_training_info, Record.className,
      Record.get_spent_calories, InfoMessage.get_message, Option.map,
      hd, hs, hc, hdur, formatFixed3_one, formatFixed3_975,
      formatFixed3_run_calories]
    rfl

/-- Claim C6: for input `("SWM", [720, 1, 80, 25, 40])` the metrics are
distance = 720*1.38/1000 = 0.9936, mean speed = 25*40/1000/1 = 1.0 and
calories = (1.0+1.1)*2*80*1 = 336.0. -/
theorem C6_swim_scenario :
    read_package "SWM" [720, 1, 80, 25, 40]
        = ([], .ok (some (.swm ⟨⟨720, 1, 80⟩, 25, 40⟩)))
    ∧ Record.get_distance (.swm ⟨⟨720, 1, 80⟩, 25, 40⟩) = 720 * 1.38 / 1000
    ∧ (720 * 1.38 / 1000 : ℚ) = 0.9936
    ∧ Record.get_mean_speed (.swm ⟨⟨720, 1, 80⟩, 25, 40⟩) = 25 * 40 / 1000 / 1
    ∧ (25 * 40 / 1000 / 1 : ℚ) = 1
    ∧ Record.get_spent_calories (.swm ⟨⟨720, 1, 80⟩, 25, 40⟩)
        = some ((1 + 1.1) * 2 * 80 * 1)
    ∧ ((1 + 1.1) * 2 * 80 * 1 : ℚ) = 336 := by
  have hc : Swimming.get_spent_calories ⟨⟨720, 1, 80⟩, 25, 40⟩ = 336 := by
    norm_num [Swimming.get_spent_calories, Swimming.get_mean_speed,
      Swimming.OFFSET_AVG_SPEED, Swimming.SPEED_MULTIPLIER, Training.M_IN_KM]
  refine ⟨rfl, ?_, by norm_num, ?_, by norm_num, ?_, by norm_num⟩
  · norm_num [Record.get_distance, Swimming.get_distance, Swimming.LEN_STEP,
      Training.M_IN_KM]
  · norm_num [Record.get_mean_speed, Swimming.get_mean_speed, Training.M_IN_KM]
  · simp only [Record.get_spent_calories, hc]
    norm_num

/-- Claim C7 counterexample: the claim states the report line verbatim with
English labels (`Training type: ...; Duration: ... h; ...`), but the
`MESSAGE` template in the source uses Russian labels
(`Тип тренировки: ...; Длительность: ... ч.; ...`), so the produced line is
not the claimed one even for a fully concrete message. -/
theorem C7_not_english_template :
    InfoMessage.get_message ⟨"Running", 1, 9.75, 9.75, some 797.805⟩
      ≠ some ("Training type: Running; Duration: 1.000 h; Distance: 9.750 km; "
           ++ "Avg speed: 9.750 km/h; Calories burned: 797.805.") := by
  simp only [InfoMessage.get_message, Option.map, formatFixed3_one,
    formatFixed3_975, formatFixed3_run_calories]
  decide

/-- Claim C7 (amended): for every message whose calories slot holds a value,
the formatter produces the single line
`"Тип тренировки: {type}; Длительность: {duration:.3f} ч.; Дистанция:
{distance:.3f} км; Ср. скорость: {speed:.3f} км/ч; Потрачено ккал:
{calories:.3f}."`, and the `{:.3f}` rendering always consists of an integer
part (digits, possibly preceded by a minus sign) and exactly 3 fractional
digits in fixed-point notation, never scientific, regardless of input
magnitude. -/
theorem C7_message_format (msg : InfoMessage) (c : ℚ) (h : msg.calories = some c) :
    msg.get_message = some ("Тип тренировки: " ++ msg.training_type
      ++ "; Длительность: " ++ formatFixed3 msg.duration
      ++ " ч.; Дистанция: " ++ formatFixed3 msg.distance
      ++ " км; Ср. скорость: " ++ formatFixed3 msg.speed
      ++ " км/ч; Потрачено ккал: " ++ formatFixed3 c ++ ".")
    ∧ ∀ q : ℚ, ∃ ip fp : String, formatFixed3 q = ip ++ "." ++ fp
        ∧ fp.length = 3
        ∧ (∀ ch ∈ fp.data, ch.isDigit = true)
        ∧ (∀ ch ∈ ip.data, ch.isDigit = true ∨ ch = '-') := by
  constructor
  · simp [InfoMessage.get_message, h]
  · intro q
    refine ⟨intPart3 q, fracPart3 q, rfl, rfl, pad3chars_digits _, ?_⟩
    intro ch hch
    have hch' : ch ∈ (if scaled3 q < 0 then "-" else "").data
        ++ natChars ((scaled3 q).natAbs / 1000) := hch
    rcases List.mem_append.1 hch' with h1 | h1
    · right
      by_cases hneg : scaled3 q < 0
      · simp [if_pos hneg] at h1
        exact h1
      · simp [if_neg hneg] at h1
    · left
      exact natCharsAux_digits _ _ _ h1

/-- Claim C7 witness: the amended theorem instantiated at the sample running
message. -/
theorem C7_message_format_witness :
    sampleRunMsg.calories = some 797.805
    ∧ (sampleRunMsg.get_message = some ("Тип тренировки: "
          ++ sampleRunMsg.training_type
          ++ "; Длительность: " ++ formatFixed3 sampleRunMsg.duration
          ++ " ч.; Дистанция: " ++ formatFixed3 sampleRunMsg.distance
          ++ " км; Ср. скорость: " ++ formatFixed3 sampleRunMsg.speed
          ++ " км/ч; Потрачено ккал: " ++ formatFixed3 (797.805 : ℚ) ++ ".")
      ∧ ∀ q : ℚ, ∃ ip fp : String, formatFixed3 q = ip ++ "." ++ fp
          ∧ fp.length = 3
          ∧ (∀ ch ∈ fp.data, ch.isDigit = true)
          ∧ (∀ ch ∈ ip.data, ch.isDigit = true ∨ ch = '-')) :=
  ⟨rfl, C7_message_format sampleRunMsg 797.805 rfl⟩

/-- Claim C8: for each known workout-type code, a raw value list whose length
does not match the variant's field count makes the dataclass constructor
raise `TypeError`, which `read_package` does not catch — the failure
propagates to the caller. -/
theorem C8_arity_mismatch_propagates (data : List ℚ) :
    (data.length ≠ 3 → ∃ e, (read_package "RUN" data).2 = .error e)
    ∧ (data.length ≠ 4 → ∃ e, (read_package "WLK" data).2 = .error e)
    ∧ (data.length ≠ 5 → ∃ e, (read_package "SWM" data).2 = .error e) := by
  refine ⟨fun h => ?_, fun h => ?_, fun h => ?_⟩
  · match data, h with
    | [], _ => exact ⟨_, rfl⟩
    | [a], _ => exact ⟨_, rfl⟩
    | [a, b], _ => exact ⟨_, rfl⟩
    | [a, b, c], h => exact absurd rfl h
    | a :: b :: c :: d :: rest, _ => exact ⟨_, rfl⟩
  · match data, h with
    | [], _ => exact ⟨_, rfl⟩
    | [a], _ => exact ⟨_, rfl⟩
    | [a, b], _ => exact ⟨_, rfl⟩
    | [a, b, c], _ => exact ⟨_, rfl⟩
    | [a, b, c, d], h => exact absurd rfl h
    | a :: b :: c :: d :: e :: rest, _ => exact ⟨_, rfl⟩
  · match data, h with
    | [], _ => exact ⟨_, rfl⟩
    | [a], _ => exact ⟨_, rfl⟩
    | [a, b], _ => exact ⟨_, rfl⟩
    | [a, b, c], _ => exact ⟨_, rfl⟩
    | [a, b, c, d], _ => exact ⟨_, rfl⟩
    | [a, b, c, d, e], h => exact absurd rfl h
    | a :: b :: c :: d :: e :: f :: rest, _ => exact ⟨_, rfl⟩

/-- Claim C8 witness: the two-element list `[1, 2]` mismatches all three
variants' field counts and each construction surfaces an error. -/
theorem C8_arity_mismatch_witness :
    (([1, 2] : List ℚ).length ≠ 3
      ∧ ∃ e, (read_package "RUN" [1, 2]).2 = .error e)
    ∧ (([1, 2] : List ℚ).length ≠ 4
      ∧ ∃ e, (read_package "WLK" [1, 2]).2 = .error e)
    ∧ (([1, 2] : List ℚ).length ≠ 5
      ∧ ∃ e, (read_package "SWM" [1, 2]).2 = .error e) :=
  ⟨⟨by decide, (C8_arity_mismatch_propagates [1, 2]).1 (by decide)⟩,
   ⟨by decide, (C8_arity_mismatch_propagates [1, 2]).2.1 (by decide)⟩,
   ⟨by decide, (C8_arity_mismatch_propagates [1, 2]).2.2 (by decide)⟩⟩

/-- Claim C9: records are immutable.  Every method body in the source only
reads attributes of `self`, so in state-passing form each of the four
operations returns the record with all fields unchanged. -/
theorem C9_records_immutable (r : Record) :
    (Record.get_distance_st r).2 = r
    ∧ (Record.get_mean_speed_st r).2 = r
    ∧ (Record.get_spent_calories_st r).2 = r
    ∧ (Record.show_training_info_st r).2 = r :=
  ⟨rfl, rfl, rfl, rfl⟩

/-- Claim C10: the label placed in the report is `type(self).__name__`, the
class name verbatim: a record parsed from `"RUN"` renders as `"Running"`,
from `"WLK"` as `"SportsWalking"`, and from `"SWM"` as `"Swimming"`. -/
theorem C10_label_is_class_name :
    (∀ r : Record, (Record.show_training_info r).training_type = Record.className r)
    ∧ (∀ data : List ℚ, ∀ rec : Record,
        (read_package "RUN" data).2 = .ok (some rec) →
          Record.className rec = "Running")
    ∧ (∀ data : List ℚ, ∀ rec : Record,
        (read_package "WLK" data).2 = .ok (some rec) →
          Record.className rec = "SportsWalking")
    ∧ (∀ data : List ℚ, ∀ rec : Record,
        (read_package "SWM" data).2 = .ok (some rec) →
          Record.className rec = "Swimming") := by
  refine ⟨fun r => rfl, fun data rec h => ?_, fun data rec h => ?_,
    fun data rec h => ?_⟩
  · match data, h with
    | [a, b, c], h =>
      injection h with h1
      injection h1 with h2
      subst h2
      rfl
  · match data, h with
    | [a, b, c, d], h =>
      injection h with h1
      injection h1 with h2
      subst h2
      rfl
  · match data, h with
    | [a, b, c, d, e], h =>
      injection h with h1
      injection h1 with h2
      subst h2
      rfl

/-- Claim C10 witness: the three sample packages parse to records whose class
names are the claimed labels. -/
theorem C10_label_witness :
    ((read_package "RUN" [15000, 1, 75]).2 = .ok (some (.run ⟨⟨15000, 1, 75⟩⟩))
      ∧ Record.className (.run ⟨⟨15000, 1, 75⟩⟩) = "Running")
    ∧ ((read_package "WLK" [9000, 1, 75, 180]).2
          = .ok (some (.wlk ⟨⟨9000, 1, 75⟩, 180⟩))
      ∧ Record.className (.wlk ⟨⟨9000, 1, 75⟩, 180⟩) = "SportsWalking")
    ∧ ((read_package "SWM" [720, 1, 80, 25, 40]).2
          = .ok (some (.swm ⟨⟨720, 1, 80⟩, 25, 40⟩))
      ∧ Record.className (.swm ⟨⟨720, 1, 80⟩, 25, 40⟩) = "Swimming") :=
  ⟨⟨rfl, C10_label_is_class_name.2.1 [15000, 1, 75] _ rfl⟩,
   ⟨rfl, C10_label_is_class_name.2.2.1 [9000, 1, 75, 180] _ rfl⟩,
   ⟨rfl, C10_label_is_class_name.2.2.2 [720, 1, 80, 25, 40] _ rfl⟩⟩

end FitnessTracker
